import Mathlib

namespace DSS

/-! ## MasterFrames.h -/

/-- The kinds of value a workspace setting can hold (Qt's QVariant, as far as toBool looks). -/
inductive QVariant where
  | invalid
  | bool (b : Bool)
  | int (i : Int)
  | string (s : String)
deriving DecidableEq, Repr

/-- QVariant::toBool: a bool is itself, a number is true when non-zero, a string is true unless
its lower-case content is empty, "0" or "false". -/
def QVariant.toBool : QVariant → Bool
  | .invalid => false
  | .bool b => b
  | .int i => i != 0
  | .string s => !(s.toLower == "" || s.toLower == "0" || s.toLower == "false")

/-- Modelled from the spec: Workspace (Workspace.h is not among the sources), the global configuration
store of the design notes: the settings it holds by key, and the keys read from it so far. -/
structure Workspace where
  stored : List (String × QVariant)
  reads : List String
deriving DecidableEq, Repr

/-- Modelled from the spec: Workspace::value(key, default), the stored setting or the default
when the key is absent; the read is recorded. -/
def Workspace.value (w : Workspace) (key : String) (defaultValue : QVariant) :
    QVariant × Workspace :=
  ((w.stored.lookup key).getD defaultValue, { w with reads := w.reads ++ [key] })

/-- Modelled from the spec: PixelBuffer (CMemoryBitmap, BitmapExt.h is not among the sources): width,
height, channel count, the samples in row-major order with the channels of a pixel adjacent,
and the identity of the source frame. -/
structure PixelBuffer where
  width : Nat
  height : Nat
  channels : Nat
  samples : List ℚ
  identity : Nat
deriving DecidableEq

/-- A buffer holds one sample per pixel and channel. -/
def PixelBuffer.wellFormed (b : PixelBuffer) : Prop :=
  b.samples.length = b.width * b.height * b.channels

instance (b : PixelBuffer) : Decidable b.wellFormed := by
  unfold PixelBuffer.wellFormed; infer_instance

/-- Modelled from the spec: the invariant of the master frames, dimensions and channel layout
match those of the light frame. -/
def PixelBuffer.sameDimensions (a b : PixelBuffer) : Bool :=
  a.width == b.width && a.height == b.height && a.channels == b.channels

/-- Position of the sample of channel `c` of pixel (`x`, `y`). -/
def PixelBuffer.index (b : PixelBuffer) (x y c : Nat) : Nat :=
  (y * b.width + x) * b.channels + c

/-- Column of the pixel that sample `i` belongs to. -/
def PixelBuffer.column (b : PixelBuffer) (i : Nat) : Nat := (i / b.channels) % b.width

/-- Row of the pixel that sample `i` belongs to. -/
def PixelBuffer.row (b : PixelBuffer) (i : Nat) : Nat := (i / b.channels) / b.width

/-- Channel of sample `i`. -/
def PixelBuffer.channel (b : PixelBuffer) (i : Nat) : Nat := i % b.channels

/-- Modelled from the spec: MasterDarkFrame, a PixelBuffer with its own exposure duration and
sensor temperature at capture. -/
structure MasterDarkFrame where
  bitmap : PixelBuffer
  exposure : ℚ
  temperature : ℚ
deriving DecidableEq

/-- Modelled from the spec: CDarkFrame (DarkFrame.h is not among the sources): the selected master dark,
if any, marked for scaling with the exposure of the light frame it was selected for. -/
structure CDarkFrame where
  m_pMasterDark : Option MasterDarkFrame
  lightExposure : ℚ
deriving DecidableEq

/-- Modelled from the spec: MasterFlatFrame, a PixelBuffer of relative sensitivities with the
reference value its central tendency is normalised to. -/
structure MasterFlatFrame where
  bitmap : PixelBuffer
  reference : ℚ
deriving DecidableEq

/-- Modelled from the spec: CFlatFrame (FlatFrame.h is not among the sources): the selected master flat,
if any. -/
structure CFlatFrame where
  m_pFlatFrame : Option MasterFlatFrame
deriving DecidableEq

/-- Modelled from the spec: a detected star of the StarList (Stars.h is not among the sources), a pixel
position and an extent given as a radius. -/
structure CStar where
  x : ℚ
  y : ℚ
  radius : ℚ
deriving DecidableEq

/-- The STARVECTOR of the declarations. -/
abbrev STARVECTOR := List CStar

/-- The data members of CMasterFrames (MasterFrames.h 15-18). -/
structure CMasterFrames where
  m_pMasterOffset : Option PixelBuffer
  m_MasterDark : CDarkFrame
  m_MasterFlat : CFlatFrame
  m_fDebloom : Bool
deriving DecidableEq

/-- CMasterFrames::CMasterFrames (MasterFrames.h 21-26): the debloom flag is read from the
workspace; the masters start out not loaded. Returns the object and the workspace after the
read. -/
def CMasterFrames.new (workspace : Workspace) : CMasterFrames × Workspace :=
  let r := workspace.value "Stacking/Debloom" (QVariant.bool false)
  ({ m_pMasterOffset := none,
     m_MasterDark := { m_pMasterDark := none, lightExposure := 0 },
     m_MasterFlat := { m_pFlatFrame := none },
     m_fDebloom := r.1.toBool }, r.2)

/-- Modelled from the spec: the failures of the error-handling design that a stage can raise. -/
inductive CalibrationError where
  | DimensionMismatch
deriving DecidableEq, Repr

/-- Modelled from the spec: what a stage reports, it was applied, it was skipped for want of a
master, or it rejected its input. -/
inductive StageOutcome where
  | applied
  | skipped
  | failed (e : CalibrationError)
deriving DecidableEq, Repr

/-- The buffer a stage leaves behind and what it reports. -/
structure StageResult where
  buffer : PixelBuffer
  outcome : StageOutcome
deriving DecidableEq

/-- Modelled from the spec: the constants the component design names without fixing them, the
minimum flat value, the saturation value of the sensor and the multiple of the local deviation
beyond which a pixel is an outlier. -/
structure CalibrationConstants where
  minimumFlat : ℚ
  saturation : ℚ
  hotPixelMultiple : ℚ
deriving DecidableEq

/-- Modelled from the spec: the lower bound of the valid sample range (no negative results). -/
def lowerBound : ℚ := 0

/-- Modelled from the spec: the body of CMasterFrames::ApplyMasterOffset is not among the sources. Per
pixel output = input - bias clamped at the lower bound; no offset frame selected is a no-op
reported as skipped; a dimension mismatch is rejected with the buffer untouched. -/
def CMasterFrames.ApplyMasterOffset (mf : CMasterFrames) (pBitmap : PixelBuffer) : StageResult :=
  match mf.m_pMasterOffset with
  | none => { buffer := pBitmap, outcome := .skipped }
  | some offset =>
    if pBitmap.sameDimensions offset then
      { buffer := { pBitmap with
          samples := List.zipWith (fun v bias => max lowerBound (v - bias))
            pBitmap.samples offset.samples },
        outcome := .applied }
    else { buffer := pBitmap, outcome := .failed .DimensionMismatch }

/-- Modelled from the spec: the scale of the dark correction, light exposure divided by dark
exposure when the two differ and 1 when they match. -/
def darkScale (lightExposure darkExposure : ℚ) : ℚ :=
  if lightExposure = darkExposure then 1 else lightExposure / darkExposure

/-- Modelled from the spec: the body of CMasterFrames::ApplyMasterDark is not among the sources. Per pixel
output = input - dark * scale clamped at the lower bound, with the same dimension precondition
as the offset stage; the star list is received and not consulted. -/
def CMasterFrames.ApplyMasterDark (mf : CMasterFrames) (pBitmap : PixelBuffer)
    (_pStars : Option STARVECTOR) : StageResult :=
  match mf.m_MasterDark.m_pMasterDark with
  | none => { buffer := pBitmap, outcome := .skipped }
  | some dark =>
    if pBitmap.sameDimensions dark.bitmap then
      let scale := darkScale mf.m_MasterDark.lightExposure dark.exposure
      { buffer := { pBitmap with
          samples := List.zipWith (fun v d => max lowerBound (v - d * scale))
            pBitmap.samples dark.bitmap.samples },
        outcome := .applied }
    else { buffer := pBitmap, outcome := .failed .DimensionMismatch }

/-- Modelled from the spec: the flat correction of one sample. With debloom a sample at or
above saturation is preserved; a flat value below the minimum leaves the unflatted value;
otherwise output = input * (reference / flat). -/
def flatPixel (k : CalibrationConstants) (debloom : Bool) (reference v flat : ℚ) : ℚ :=
  if debloom ∧ k.saturation ≤ v then v
  else if flat < k.minimumFlat then v
  else v * (reference / flat)

/-- Modelled from the spec: the body of CMasterFrames::ApplyMasterFlat is not among the sources. -/
def CMasterFrames.ApplyMasterFlat (k : CalibrationConstants) (mf : CMasterFrames)
    (pBitmap : PixelBuffer) : StageResult :=
  match mf.m_MasterFlat.m_pFlatFrame with
  | none => { buffer := pBitmap, outcome := .skipped }
  | some flat =>
    if pBitmap.sameDimensions flat.bitmap then
      { buffer := { pBitmap with
          samples := List.zipWith (flatPixel k mf.m_fDebloom flat.reference)
            pBitmap.samples flat.bitmap.samples },
        outcome := .applied }
    else { buffer := pBitmap, outcome := .failed .DimensionMismatch }

/-- Mean of a list of samples, 0 for the empty list. -/
def mean (l : List ℚ) : ℚ := if l.length = 0 then 0 else l.sum / l.length

/-- Distance between two samples. -/
def distance (a b : ℚ) : ℚ := if a ≤ b then b - a else a - b

/-- Mean distance of the samples of a list from their mean. -/
def localDeviation (l : List ℚ) : ℚ := mean (l.map (distance (mean l)))

/-- The eight offsets of the neighbour window. -/
def neighbourOffsets : List (Int × Int) :=
  [(-1, -1), (0, -1), (1, -1), (-1, 0), (1, 0), (-1, 1), (0, 1), (1, 1)]

/-- Sample positions of the neighbours of sample `i` that lie inside the buffer, same channel. -/
def PixelBuffer.neighbours (b : PixelBuffer) (i : Nat) : List Nat :=
  neighbourOffsets.filterMap fun d =>
    let nx : Int := (b.column i : Int) + d.1
    let ny : Int := (b.row i : Int) + d.2
    if 0 ≤ nx ∧ nx < b.width ∧ 0 ≤ ny ∧ ny < b.height then
      some (b.index nx.toNat ny.toNat (b.channel i))
    else none

/-- Value of sample `i`, 0 outside the buffer. -/
def PixelBuffer.sample (b : PixelBuffer) (i : Nat) : ℚ := b.samples.getD i 0

/-- Modelled from the spec: a pixel is an outlier when its value deviates from the mean of its
8-neighbour window by more than the configured multiple of the local deviation. -/
def PixelBuffer.isOutlier (k : CalibrationConstants) (b : PixelBuffer) (i : Nat) : Bool :=
  let window := (b.neighbours i).map b.sample
  decide (window ≠ [] ∧
    k.hotPixelMultiple * localDeviation window < distance (mean window) (b.sample i))

/-- Modelled from the spec: the interpolated value, the mean of the neighbours that are not
outliers themselves, taken on the input buffer; the pixel is kept when it has none. -/
def PixelBuffer.interpolated (k : CalibrationConstants) (b : PixelBuffer) (i : Nat) : ℚ :=
  let good := (b.neighbours i).filter fun j => !b.isOutlier k j
  if good = [] then b.sample i else mean (good.map b.sample)

/-- Modelled from the spec: a pixel lies within the extent of a star when its distance from the
position of the star is at most the radius. -/
def CStar.covers (s : CStar) (x y : Nat) : Bool :=
  decide (((x : ℚ) - s.x) ^ 2 + ((y : ℚ) - s.y) ^ 2 ≤ s.radius ^ 2)

/-- Sample `i` belongs to a pixel within the extent of some star of the list. -/
def PixelBuffer.starProtected (b : PixelBuffer) (stars : STARVECTOR) (i : Nat) : Bool :=
  stars.any fun s => s.covers (b.column i) (b.row i)

/-- Modelled from the spec: the hot-pixel interpolation with the star list it is given. A pixel
within the extent of a star is kept, an outlier outside every star is replaced by its
interpolated value, every output sample is computed from the input buffer. -/
def InterpolateHotPixels (k : CalibrationConstants) (stars : STARVECTOR) (b : PixelBuffer) :
    PixelBuffer :=
  { b with samples := (List.range b.samples.length).map fun i =>
      if b.starProtected stars i then b.sample i
      else if b.isOutlier k i then b.interpolated k i
      else b.sample i }

/-- Modelled from the spec: the body of CMasterFrames::ApplyHotPixelInterpolation is not among the sources.
Its declaration (MasterFrames.h 35) takes the bitmap and the progress sink and no star list, so
the stage runs as the spec has it run when the star list is unavailable, with no
star-protection exclusions. -/
def CMasterFrames.ApplyHotPixelInterpolation (k : CalibrationConstants) (_mf : CMasterFrames)
    (pBitmap : PixelBuffer) : StageResult :=
  { buffer := InterpolateHotPixels k [] pBitmap, outcome := .applied }

/-- The four stages of the orchestrator. -/
inductive Stage where
  | offset
  | dark
  | flat
  | hotPixel
deriving DecidableEq, Repr

/-- Modelled from the spec: the progress collaborator CDSSProgress, as far as it acts on the
engine: its answer to the cancellation query that goes with the progress increment of a
stage. -/
structure CDSSProgress where
  cancelRequested : Stage → Bool

/-- One progress increment: the stage and what it reported. -/
structure ProgressEvent where
  stage : Stage
  outcome : StageOutcome
deriving DecidableEq, Repr

/-- Modelled from the spec: how the calibration of a frame ends. A failure is tagged with the
identity of the light frame. -/
inductive RunOutcome where
  | completed
  | cancelled
  | failed (frame : Nat) (e : CalibrationError)
deriving DecidableEq, Repr

/-- The buffer, the outcome and the progress increments of one run of the orchestrator. -/
structure RunResult where
  buffer : PixelBuffer
  outcome : RunOutcome
  events : List ProgressEvent
deriving DecidableEq

/-- The call ApplyAllMasters makes for a stage, with the parameters of the declarations
(MasterFrames.h 32-35): only ApplyMasterDark takes the star list. -/
def CMasterFrames.runStage (k : CalibrationConstants) (mf : CMasterFrames)
    (pStars : Option STARVECTOR) : Stage → PixelBuffer → StageResult
  | .offset, b => mf.ApplyMasterOffset b
  | .dark, b => mf.ApplyMasterDark b pStars
  | .flat, b => mf.ApplyMasterFlat k b
  | .hotPixel, b => mf.ApplyHotPixelInterpolation k b

/-- Modelled from the spec: the orchestrator loop. Each stage is applied fully, its progress
increment is reported, a failure aborts the remaining stages, and a cancellation requested
with the increment stops before the next stage starts. -/
def CMasterFrames.runStages (k : CalibrationConstants) (mf : CMasterFrames)
    (pStars : Option STARVECTOR) (pProgress : CDSSProgress) :
    List Stage → PixelBuffer → List ProgressEvent → RunResult
  | [], b, events => { buffer := b, outcome := .completed, events := events }
  | s :: rest, b, events =>
    let r := mf.runStage k pStars s b
    let events1 := events ++ [{ stage := s, outcome := r.outcome }]
    match r.outcome with
    | .failed e => { buffer := r.buffer, outcome := .failed b.identity e, events := events1 }
    | _ =>
      if rest ≠ [] ∧ pProgress.cancelRequested s then
        { buffer := r.buffer, outcome := .cancelled, events := events1 }
      else mf.runStages k pStars pProgress rest r.buffer events1

/-- Modelled from the spec: the body of CMasterFrames::ApplyAllMasters is not among the sources. Offset,
Dark, Flat, Hot-Pixel in strict order on the same buffer. -/
def CMasterFrames.ApplyAllMasters (k : CalibrationConstants) (mf : CMasterFrames)
    (pBitmap : PixelBuffer) (pStars : Option STARVECTOR) (pProgress : CDSSProgress) : RunResult :=
  mf.runStages k pStars pProgress [.offset, .dark, .flat, .hotPixel] pBitmap []

/-- Apply a further stage to what a stage left, unless that stage failed. -/
def StageResult.andThen (r : StageResult) (next : PixelBuffer → StageResult) : StageResult :=
  match r.outcome with
  | .failed _ => r
  | _ => next r.buffer

/-- An engine with no master loaded. -/
def noMasters : CMasterFrames :=
  { m_pMasterOffset := none, m_MasterDark := { m_pMasterDark := none, lightExposure := 0 },
    m_MasterFlat := { m_pFlatFrame := none }, m_fDebloom := false }

/-- Constants used in the examples: minimum flat 1/100, saturation 65535, multiple 3. -/
def exampleConstants : CalibrationConstants :=
  { minimumFlat := 1 / 100, saturation := 65535, hotPixelMultiple := 3 }

/-- A progress collaborator that never asks to cancel. -/
def neverCancel : CDSSProgress := { cancelRequested := fun _ => false }

/-- The frames of the ordering example: 2 x 2, every sample 10. -/
def orderLight : PixelBuffer :=
  { width := 2, height := 2, channels := 1, samples := [10, 10, 10, 10], identity := 1 }

/-- An engine holding a dark of 4 with the exposure of the light frame and a flat of 1 whose
reference is 2, and no offset. -/
def orderMasters : CMasterFrames :=
  { m_pMasterOffset := none,
    m_MasterDark :=
      { m_pMasterDark := some
          { bitmap := { width := 2, height := 2, channels := 1, samples := [4, 4, 4, 4],
                        identity := 2 },
            exposure := 30, temperature := 20 },
        lightExposure := 30 },
    m_MasterFlat :=
      { m_pFlatFrame := some
          { bitmap := { width := 2, height := 2, channels := 1, samples := [1, 1, 1, 1],
                        identity := 3 },
            reference := 2 } },
    m_fDebloom := false }

/-- A 100 x 100 monochrome light frame. -/
def light100 : PixelBuffer :=
  { width := 100, height := 100, channels := 1, samples := List.replicate 10000 500,
    identity := 1 }

/-- An engine whose master offset is 99 x 100. -/
def offset99 : CMasterFrames :=
  { noMasters with
    m_pMasterOffset := some
      { width := 99, height := 100, channels := 1, samples := List.replicate 9900 100,
        identity := 2 } }

/-- An engine whose master dark has half the exposure of the light frame. -/
def halfDark : CMasterFrames :=
  { noMasters with
    m_MasterDark :=
      { m_pMasterDark := some
          { bitmap := { width := 2, height := 1, channels := 1, samples := [3, 50],
                        identity := 2 },
            exposure := 15, temperature := 20 },
        lightExposure := 30 } }

/-- A 2 x 1 light frame. -/
def light2 : PixelBuffer :=
  { width := 2, height := 1, channels := 1, samples := [10, 10], identity := 1 }

/-! ## toolbar.cpp -/

/-- Values of the Qt::MouseButton flags used by the toolbar. -/
def Qt.LeftButton : Nat := 1

/-- Value of Qt::RightButton. -/
def Qt.RightButton : Nat := 2

/-- Value of Qt::MiddleButton. -/
def Qt.MiddleButton : Nat := 4

/-- A point in widget or screen coordinates. -/
structure QPoint where
  x : Int
  y : Int
deriving DecidableEq, Repr

/-- The two accessors of QMouseEvent the handler can see: `button` is the button
that caused the event, `buttons` the or-ed mask of all buttons held down when it
was generated. -/
structure QMouseEvent where
  button : Nat
  buttons : Nat
deriving DecidableEq, Repr

/-- The four actions placed on the toolbar by the constructor. -/
inductive ToolAction where
  | rectAction
  | starsAction
  | cometAction
  | saveAction
deriving DecidableEq, Repr

/-- Placement of the widget on screen and of the buttons inside it, both supplied by Qt. -/
structure ToolBarGeometry where
  mapFromGlobal : QPoint → QPoint
  actionAt : QPoint → Option ToolAction

/-- What ToolBar::mousePressEvent does to the outside world. -/
inductive MouseEffect where
  | saveMenuExec (pos : QPoint)
  | inheritedMousePressEvent (event : QMouseEvent)
deriving DecidableEq, Repr

/-- ToolBar::mousePressEvent (toolbar.cpp 199-215); `cursor` is what QCursor::pos() returns. -/
def ToolBar.mousePressEvent (g : ToolBarGeometry) (cursor : QPoint) (event : QMouseEvent) :
    List MouseEffect :=
  let globalMouseLocation := cursor
  let mouseLocation := g.mapFromGlobal globalMouseLocation
  (if Qt.RightButton = event.buttons ∧ some ToolAction.saveAction = g.actionAt mouseLocation then
      [MouseEffect.saveMenuExec cursor]
    else [])
  ++ [MouseEffect.inheritedMousePressEvent event]

/-- A mouse press event caused by the right button. -/
def QMouseEvent.isRightButtonPress (event : QMouseEvent) : Prop :=
  event.button = Qt.RightButton

instance (event : QMouseEvent) : Decidable event.isRightButtonPress := by
  unfold QMouseEvent.isRightButtonPress; infer_instance

/-- Qt delivers a press event with the pressed button included in the held-buttons mask. -/
def QMouseEvent.wellFormedPress (event : QMouseEvent) : Prop :=
  event.button &&& event.buttons = event.button ∧ event.button ≠ 0

instance (event : QMouseEvent) : Decidable event.wellFormedPress := by
  unfold QMouseEvent.wellFormedPress; infer_instance

/-- The state of one QAction that matters here. -/
structure QAction where
  checkable : Bool
  checked : Bool
  enabled : Bool
deriving DecidableEq, Repr

/-- QAction::isChecked. -/
def QAction.isChecked (q : QAction) : Bool := q.checked && q.checkable

/-- The three mode actions, the members of selectionGroup. -/
inductive ModeAction where
  | rect
  | stars
  | comet
deriving DecidableEq, Repr

/-- QActionGroup: its members, its exclusive flag and the action it holds as the checked one. -/
structure QActionGroup where
  actions : List ModeAction
  exclusive : Bool
  current : Option ModeAction
deriving DecidableEq, Repr

/-- Slots of StackingDlg connected to the triggered signals (their bodies are outside the toolbar). -/
inductive DlgSlot where
  | toolBar_rectButtonPressed
  | toolBar_starsButtonPressed
  | toolBar_cometButtonPressed
  | toolBar_saveButtonPressed
deriving DecidableEq, Repr

/-- The members of ToolBar that the mode buttons read and write. -/
structure ToolBar where
  rectAction : QAction
  starsAction : QAction
  cometAction : QAction
  saveAction : QAction
  selectionGroup : QActionGroup
  dlgCalls : List DlgSlot
deriving DecidableEq, Repr

/-- The QAction behind a mode button. -/
def ToolBar.action (tb : ToolBar) : ModeAction → QAction
  | .rect => tb.rectAction
  | .stars => tb.starsAction
  | .comet => tb.cometAction

/-- Store a new QAction state behind a mode button. -/
def ToolBar.setAction (tb : ToolBar) (a : ModeAction) (q : QAction) : ToolBar :=
  match a with
  | .rect => { tb with rectAction := q }
  | .stars => { tb with starsAction := q }
  | .comet => { tb with cometAction := q }

/-- The group reacting to the changed signal of the action it currently holds as checked,
after that action has been unchecked: it forgets it. -/
def ToolBar.uncheckCurrent (tb : ToolBar) (c : ModeAction) : ToolBar :=
  let q := tb.action c
  if q.checked = false then tb
  else
    let tb1 := tb.setAction c { q with checked := false }
    if q.checkable = false then tb1
    else { tb1 with selectionGroup := { tb1.selectionGroup with current := none } }

/-- The group reacting to the changed signal of member `a` (QActionGroup, exclusive policy). -/
def ToolBar.actionChanged (tb : ToolBar) (a : ModeAction) : ToolBar :=
  if a ∉ tb.selectionGroup.actions then tb
  else if tb.selectionGroup.exclusive = false then tb
  else if (tb.action a).isChecked then
    if tb.selectionGroup.current = some a then tb
    else
      let tb1 := match tb.selectionGroup.current with
        | some c => tb.uncheckCurrent c
        | none => tb
      { tb1 with selectionGroup := { tb1.selectionGroup with current := some a } }
  else if tb.selectionGroup.current = some a then
    { tb with selectionGroup := { tb.selectionGroup with current := none } }
  else tb

/-- QAction::setChecked on a mode action. -/
def ToolBar.setChecked (tb : ToolBar) (a : ModeAction) (b : Bool) : ToolBar :=
  let q := tb.action a
  if q.checked = b then tb
  else
    let tb1 := tb.setAction a { q with checked := b }
    if q.checkable = false then tb1 else tb1.actionChanged a

/-- QAction::setCheckable on a mode action. -/
def ToolBar.setCheckable (tb : ToolBar) (a : ModeAction) (b : Bool) : ToolBar :=
  let q := tb.action a
  if q.checkable = b then tb
  else (tb.setAction a { q with checkable := b }).actionChanged a

/-- QActionGroup::addAction on selectionGroup. -/
def ToolBar.groupAddAction (tb : ToolBar) (a : ModeAction) : ToolBar :=
  let g := tb.selectionGroup
  let g1 := if a ∈ g.actions then g else { g with actions := g.actions ++ [a] }
  let g2 := if (tb.action a).isChecked then { g1 with current := some a } else g1
  { tb with selectionGroup := g2 }

/-- The functor given to addAction for rectAction (toolbar.cpp 86-89). -/
def ToolBar.rectLambda (tb : ToolBar) : ToolBar :=
  ((tb.setChecked .rect true).setChecked .stars false).setChecked .comet false

/-- The functor given to addAction for starsAction (toolbar.cpp 103-106). -/
def ToolBar.starsLambda (tb : ToolBar) : ToolBar :=
  ((tb.setChecked .rect false).setChecked .stars true).setChecked .comet false

/-- The functor given to addAction for cometAction (toolbar.cpp 116-119). -/
def ToolBar.cometLambda (tb : ToolBar) : ToolBar :=
  ((tb.setChecked .rect false).setChecked .stars false).setChecked .comet true

/-- The slots run when a mode action emits triggered, in connection order:
the functor, then the StackingDlg slot. -/
def ToolBar.emitTriggered (tb : ToolBar) : ModeAction → ToolBar
  | .rect =>
    let tb1 := tb.rectLambda
    { tb1 with dlgCalls := tb1.dlgCalls ++ [DlgSlot.toolBar_rectButtonPressed] }
  | .stars =>
    let tb1 := tb.starsLambda
    { tb1 with dlgCalls := tb1.dlgCalls ++ [DlgSlot.toolBar_starsButtonPressed] }
  | .comet =>
    let tb1 := tb.cometLambda
    { tb1 with dlgCalls := tb1.dlgCalls ++ [DlgSlot.toolBar_cometButtonPressed] }

/-- QAction::activate(QAction::Trigger) on a mode action: a disabled action ignores it, a
checkable one toggles unless it is the checked action of its exclusive group, then
triggered is emitted. -/
def ToolBar.activate (tb : ToolBar) (a : ModeAction) : ToolBar :=
  let q := tb.action a
  if q.enabled = false then tb
  else if q.checkable then
    if q.checked ∧ a ∈ tb.selectionGroup.actions ∧ tb.selectionGroup.exclusive
        ∧ tb.selectionGroup.current = some a then
      tb.emitTriggered a
    else (tb.setChecked a (!q.checked)).emitTriggered a
  else tb.emitTriggered a

/-- A freshly created QAction: enabled, not checkable, not checked. -/
def QAction.fresh : QAction := { checkable := false, checked := false, enabled := true }

/-- ToolBar::ToolBar (toolbar.cpp 52-162), the statements that touch the actions. -/
def ToolBar.new : ToolBar :=
  let tb0 : ToolBar :=
    { rectAction := QAction.fresh, starsAction := QAction.fresh, cometAction := QAction.fresh,
      saveAction := QAction.fresh,
      selectionGroup := { actions := [], exclusive := true, current := none },
      dlgCalls := [] }
  let tb1 := ((tb0.setCheckable .rect true).setCheckable .stars true).setCheckable .comet true
  let tb2 := ((tb1.groupAddAction .rect).groupAddAction .stars).groupAddAction .comet
  let tb3 := { tb2 with selectionGroup := { tb2.selectionGroup with exclusive := true } }
  let tb4 := tb3.setChecked .rect true
  let tb5 := tb4.activate .rect
  { tb5 with saveAction := { tb5.saveAction with enabled := false } }

/-- The toolbar after a sequence of triggers of the mode actions. -/
def ToolBar.afterTriggers (ts : List ModeAction) : ToolBar :=
  ts.foldl ToolBar.activate ToolBar.new

/-- An enum class value is its underlying int; EditSaveMode is declared in SaveEditChanges.h. -/
structure EditSaveMode where
  underlying : Int
deriving DecidableEq, Repr

/-- The enumerators of EditSaveMode named in toolbar.cpp; their values are fixed by the
declaration in SaveEditChanges.h and are taken here as given. -/
structure EditSaveModeDecl where
  SaveDontAsk : EditSaveMode
  DiscardDontAsk : EditSaveMode
  AskAlways : EditSaveMode

/-- The conversion static_cast to int applied to an EditSaveMode. -/
def EditSaveMode.toInt (m : EditSaveMode) : Int := m.underlying

/-- The conversion static_cast to EditSaveMode applied to an int. -/
def EditSaveMode.ofInt (i : Int) : EditSaveMode := { underlying := i }

/-- Calls that leave the toolbar for the free function setSaveEditMode. -/
inductive SaveCall where
  | setSaveEditMode (mode : EditSaveMode)
deriving DecidableEq, Repr

/-- ToolBar::setSaveMode (toolbar.cpp 194-197). -/
def ToolBar.setSaveMode (mode : Int) : List SaveCall :=
  [SaveCall.setSaveEditMode (EditSaveMode.ofInt mode)]

/-- The three entries of the save context menu built by createActions and createMenus. -/
inductive SaveMenuAction where
  | onSaveAlways
  | onSaveNever
  | onAskAlways
deriving DecidableEq, Repr

/-- ToolBar::createActions (toolbar.cpp 165-180): the slot connected to each entry. -/
def ToolBar.createActions (decl : EditSaveModeDecl) : SaveMenuAction → List SaveCall
  | .onSaveAlways => ToolBar.setSaveMode (EditSaveMode.toInt decl.SaveDontAsk)
  | .onSaveNever => ToolBar.setSaveMode (EditSaveMode.toInt decl.DiscardDontAsk)
  | .onAskAlways => ToolBar.setSaveMode (EditSaveMode.toInt decl.AskAlways)

/-- The toolbar state in which exactly mode action `a` is checked. -/
def ToolBar.canonical (a : ModeAction) (calls : List DlgSlot) : ToolBar :=
  { rectAction := { checkable := true, checked := decide (a = .rect), enabled := true },
    starsAction := { checkable := true, checked := decide (a = .stars), enabled := true },
    cometAction := { checkable := true, checked := decide (a = .comet), enabled := true },
    saveAction := { checkable := false, checked := false, enabled := false },
    selectionGroup := { actions := [.rect, .stars, .comet], exclusive := true, current := some a },
    dlgCalls := calls }

/-- The StackingDlg slot connected to a mode action. -/
def ModeAction.dlgSlot : ModeAction → DlgSlot
  | .rect => DlgSlot.toolBar_rectButtonPressed
  | .stars => DlgSlot.toolBar_starsButtonPressed
  | .comet => DlgSlot.toolBar_cometButtonPressed

/-- A toolbar geometry in which every point lies over the save button. -/
def saveGeometry : ToolBarGeometry :=
  { mapFromGlobal := fun p => p, actionAt := fun _ => some ToolAction.saveAction }

/-- A press of the right button while the left button is held down. -/
def chordEvent : QMouseEvent :=
  { button := Qt.RightButton, buttons := Qt.LeftButton ||| Qt.RightButton }

/-! ## Theorems -/

theorem StageResult.identity_offset (mf : CMasterFrames) (b : PixelBuffer) :
    (mf.ApplyMasterOffset b).buffer.identity = b.identity := by
  unfold CMasterFrames.ApplyMasterOffset
  split
  · rfl
  · split <;> rfl

theorem StageResult.identity_dark (mf : CMasterFrames) (b : PixelBuffer)
    (stars : Option STARVECTOR) : (mf.ApplyMasterDark b stars).buffer.identity = b.identity := by
  unfold CMasterFrames.ApplyMasterDark
  split
  · rfl
  · split <;> rfl

theorem StageResult.identity_flat (k : CalibrationConstants) (mf : CMasterFrames)
    (b : PixelBuffer) : (mf.ApplyMasterFlat k b).buffer.identity = b.identity := by
  unfold CMasterFrames.ApplyMasterFlat
  split
  · rfl
  · split <;> rfl

theorem StageResult.hotPixel_outcome (k : CalibrationConstants) (mf : CMasterFrames)
    (b : PixelBuffer) : (mf.ApplyHotPixelInterpolation k b).outcome = .applied := rfl

/-- C1 : when the progress collaborator never asks to cancel, ApplyAllMasters leaves the buffer
that ApplyMasterOffset, then ApplyMasterDark, then ApplyMasterFlat, then
ApplyHotPixelInterpolation leave when each is applied to what the one before left (a failed
stage ending the chain), reports the failure of the chain tagged with the frame or completion,
and reports the four stages in that order when none fails. -/
theorem CMasterFrames.ApplyAllMasters_strict_order (k : CalibrationConstants)
    (mf : CMasterFrames) (b : PixelBuffer) (stars : Option STARVECTOR) (progress : CDSSProgress)
    (h : ∀ s, progress.cancelRequested s = false) :
    (mf.ApplyAllMasters k b stars progress).buffer
        = ((((mf.ApplyMasterOffset b).andThen fun b1 => mf.ApplyMasterDark b1 stars).andThen
            (mf.ApplyMasterFlat k)).andThen (mf.ApplyHotPixelInterpolation k)).buffer
      ∧ (mf.ApplyAllMasters k b stars progress).outcome
        = (match ((((mf.ApplyMasterOffset b).andThen fun b1 => mf.ApplyMasterDark b1 stars).andThen
            (mf.ApplyMasterFlat k)).andThen (mf.ApplyHotPixelInterpolation k)).outcome with
          | .failed e => RunOutcome.failed b.identity e
          | _ => RunOutcome.completed)
      ∧ ((mf.ApplyAllMasters k b stars progress).outcome = RunOutcome.completed →
          (mf.ApplyAllMasters k b stars progress).buffer
            = (mf.ApplyHotPixelInterpolation k (mf.ApplyMasterFlat k
                (mf.ApplyMasterDark (mf.ApplyMasterOffset b).buffer stars).buffer).buffer).buffer
          ∧ (mf.ApplyAllMasters k b stars progress).events.map ProgressEvent.stage
            = [Stage.offset, Stage.dark, Stage.flat, Stage.hotPixel]) := by
  have ho := StageResult.identity_offset mf b
  have hd := StageResult.identity_dark mf (mf.ApplyMasterOffset b).buffer stars
  have hf := StageResult.identity_flat k mf
    (mf.ApplyMasterDark (mf.ApplyMasterOffset b).buffer stars).buffer
  simp only [CMasterFrames.ApplyAllMasters, CMasterFrames.runStages, CMasterFrames.runStage, h,
    StageResult.andThen]
  cases h1 : (mf.ApplyMasterOffset b).outcome <;>
  cases h2 : (mf.ApplyMasterDark (mf.ApplyMasterOffset b).buffer stars).outcome <;>
  cases h3 : (mf.ApplyMasterFlat k
    (mf.ApplyMasterDark (mf.ApplyMasterOffset b).buffer stars).buffer).outcome <;>
  simp [h1, h2, h3, StageResult.hotPixel_outcome, ho, hd, hf]

/-- C1 witness : at the ordering example the engine yields 12 everywhere, (10 - 4) * 2, the
value of dark-then-flat, while flat-then-dark yields 16. -/
theorem CMasterFrames.ApplyAllMasters_strict_order_witness :
    (orderMasters.ApplyAllMasters exampleConstants orderLight none neverCancel).buffer
        = ((((orderMasters.ApplyMasterOffset orderLight).andThen
              fun b1 => orderMasters.ApplyMasterDark b1 none).andThen
            (orderMasters.ApplyMasterFlat exampleConstants)).andThen
            (orderMasters.ApplyHotPixelInterpolation exampleConstants)).buffer
      ∧ (orderMasters.ApplyAllMasters exampleConstants orderLight none neverCancel).buffer.samples
        = [12, 12, 12, 12]
      ∧ (orderMasters.ApplyMasterFlat exampleConstants
          (orderMasters.ApplyMasterDark orderLight none).buffer).buffer.samples = [12, 12, 12, 12]
      ∧ (orderMasters.ApplyMasterDark
          (orderMasters.ApplyMasterFlat exampleConstants orderLight).buffer none).buffer.samples
        = [16, 16, 16, 16] :=
  ⟨(CMasterFrames.ApplyAllMasters_strict_order exampleConstants orderMasters orderLight none
      neverCancel (fun _ => rfl)).1,
   by decide!, by decide!, by decide!⟩

/-- C4 : when the loaded master offset and the light frame differ in dimensions,
ApplyMasterOffset reports the DimensionMismatch failure and returns the buffer as it was, its
dimensions and every sample. -/
theorem CMasterFrames.ApplyMasterOffset_dimension_mismatch (mf : CMasterFrames)
    (b offset : PixelBuffer) (h : mf.m_pMasterOffset = some offset)
    (hd : b.sameDimensions offset = false) :
    (mf.ApplyMasterOffset b).outcome = .failed .DimensionMismatch
      ∧ (mf.ApplyMasterOffset b).buffer = b := by
  simp [CMasterFrames.ApplyMasterOffset, h, hd]

/-- C4 witness : the 100 x 100 light frame against the 99 x 100 master offset. -/
theorem CMasterFrames.ApplyMasterOffset_dimension_mismatch_witness :
    (offset99.ApplyMasterOffset light100).outcome = .failed .DimensionMismatch
      ∧ (offset99.ApplyMasterOffset light100).buffer = light100 :=
  CMasterFrames.ApplyMasterOffset_dimension_mismatch offset99 light100
    { width := 99, height := 100, channels := 1, samples := List.replicate 9900 100,
      identity := 2 } rfl (by decide)

theorem darkScale_same (e : ℚ) : darkScale e e = 1 := by
  simp [darkScale]

theorem darkScale_quotient (l d : ℚ) (h : d ≠ 0) : darkScale l d = l / d := by
  unfold darkScale
  split
  · next heq => rw [heq, div_self h]
  · rfl

theorem darkScale_half (e : ℚ) (h : e ≠ 0) : darkScale e (e / 2) = 2 := by
  unfold darkScale
  have hne : ¬ e = e / 2 := by
    intro heq
    apply h
    linarith
  rw [if_neg hne]
  field_simp

/-- C5 : with a master dark of the dimensions of the light frame, ApplyMasterDark is applied and
every output sample is max(lower bound, input - dark * scale), where scale is the quotient of
the light and dark exposures for a dark exposure other than 0, 1 when the two exposures are
equal and 2 when the dark exposure is half of a light exposure other than 0. -/
theorem CMasterFrames.ApplyMasterDark_formula (mf : CMasterFrames) (b : PixelBuffer)
    (stars : Option STARVECTOR) (dark : MasterDarkFrame)
    (h : mf.m_MasterDark.m_pMasterDark = some dark)
    (hd : b.sameDimensions dark.bitmap = true) :
    (mf.ApplyMasterDark b stars).outcome = .applied
      ∧ (b.wellFormed → dark.bitmap.wellFormed →
          (mf.ApplyMasterDark b stars).buffer.samples.length = b.samples.length)
      ∧ (∀ i (hi : i < b.samples.length) (hj : i < dark.bitmap.samples.length),
          (mf.ApplyMasterDark b stars).buffer.samples[i]?
            = some (max lowerBound (b.samples[i] - dark.bitmap.samples[i]
                * darkScale mf.m_MasterDark.lightExposure dark.exposure)))
      ∧ (dark.exposure ≠ 0 →
          darkScale mf.m_MasterDark.lightExposure dark.exposure
            = mf.m_MasterDark.lightExposure / dark.exposure)
      ∧ (dark.exposure = mf.m_MasterDark.lightExposure →
          darkScale mf.m_MasterDark.lightExposure dark.exposure = 1)
      ∧ (dark.exposure = mf.m_MasterDark.lightExposure / 2 →
          mf.m_MasterDark.lightExposure ≠ 0 →
          darkScale mf.m_MasterDark.lightExposure dark.exposure = 2) := by
  refine ⟨?_, ?_, ?_, ?_, ?_, ?_⟩
  · simp [CMasterFrames.ApplyMasterDark, h, hd]
  · intro hb hdk
    have hw : b.width = dark.bitmap.width ∧ b.height = dark.bitmap.height
        ∧ b.channels = dark.bitmap.channels := by
      simpa [PixelBuffer.sameDimensions, and_assoc] using hd
    have hl : dark.bitmap.samples.length = b.samples.length := by
      unfold PixelBuffer.wellFormed at hb hdk
      rw [hb, hdk, hw.1, hw.2.1, hw.2.2]
    simp [CMasterFrames.ApplyMasterDark, h, hd, hl]
  · intro i hi hj
    simp [CMasterFrames.ApplyMasterDark, h, hd, List.getElem?_zipWith, hi, hj]
  · intro hne
    exact darkScale_quotient _ _ hne
  · intro heq
    rw [heq]
    exact darkScale_same _
  · intro heq hne
    rw [heq]
    exact darkScale_half _ hne

/-- C5 witness : exposures 30 and 15 give scale 2; 10 - 3 * 2 = 4 and 10 - 50 * 2 clamps to 0. -/
theorem CMasterFrames.ApplyMasterDark_formula_witness :
    darkScale halfDark.m_MasterDark.lightExposure 15 = 2
      ∧ (halfDark.ApplyMasterDark light2 none).buffer.samples = [4, 0]
      ∧ (halfDark.ApplyMasterDark light2 none).outcome = .applied :=
  ⟨(CMasterFrames.ApplyMasterDark_formula halfDark light2 none
      { bitmap := { width := 2, height := 1, channels := 1, samples := [3, 50], identity := 2 },
        exposure := 15, temperature := 20 } rfl (by decide)).2.2.2.2.2 (by decide!) (by decide!),
   by decide!, by decide!⟩

/-- C6 : constructing a CMasterFrames sets the debloom flag to the boolean stored under
"Stacking/Debloom" and to false when the key is absent, with exactly one read of the workspace,
of that key, and no change to what is stored. -/
theorem CMasterFrames.new_debloom (w : Workspace) :
    (∀ v : Bool, w.stored.lookup "Stacking/Debloom" = some (QVariant.bool v) →
        (CMasterFrames.new w).1.m_fDebloom = v)
      ∧ (w.stored.lookup "Stacking/Debloom" = none → (CMasterFrames.new w).1.m_fDebloom = false)
      ∧ (CMasterFrames.new w).2.reads = w.reads ++ ["Stacking/Debloom"]
      ∧ (CMasterFrames.new w).2.stored = w.stored := by
  refine ⟨?_, ?_, rfl, rfl⟩
  · intro v hv
    simp [CMasterFrames.new, Workspace.value, hv, QVariant.toBool]
  · intro hv
    simp [CMasterFrames.new, Workspace.value, hv, QVariant.toBool]

/-- C6 witness : a workspace holding true under the key gives a debloom flag of true, an empty
one gives false. -/
theorem CMasterFrames.new_debloom_witness :
    (CMasterFrames.new { stored := [("Stacking/Debloom", QVariant.bool true)],
                         reads := [] }).1.m_fDebloom = true
      ∧ (CMasterFrames.new { stored := [], reads := [] }).1.m_fDebloom = false :=
  ⟨(CMasterFrames.new_debloom { stored := [("Stacking/Debloom", QVariant.bool true)],
                                reads := [] }).1 true (by decide),
   (CMasterFrames.new_debloom { stored := [], reads := [] }).2.1 (by decide)⟩

theorem ToolBar.activate_canonical (a b : ModeAction) (calls : List DlgSlot) :
    (ToolBar.canonical a calls).activate b
      = ToolBar.canonical b (calls ++ [b.dlgSlot]) := by
  cases a <;> cases b <;> rfl

theorem ToolBar.afterTriggers_canonical (ts : List ModeAction) :
    ∃ calls, ToolBar.afterTriggers ts
      = ToolBar.canonical (ts.getLast?.getD ModeAction.rect) calls := by
  induction ts using List.reverseRecOn with
  | nil => exact ⟨[DlgSlot.toolBar_rectButtonPressed], by decide⟩
  | append_singleton ts t ih =>
    obtain ⟨calls, h⟩ := ih
    refine ⟨calls ++ [t.dlgSlot], ?_⟩
    unfold ToolBar.afterTriggers at h ⊢
    rw [List.foldl_append, h]
    simp only [List.foldl_cons, List.foldl_nil, List.getLast?_append, List.getLast?_singleton,
      Option.getD_some]
    have e : ((some t).or ts.getLast?).getD ModeAction.rect = t := rfl
    rw [e]
    exact ToolBar.activate_canonical _ _ _

/-- C8 : after any sequence of triggers of the mode actions, a mode action is checked exactly
when it is the one triggered last (the rectangle action when nothing was triggered yet). -/
theorem ToolBar.exactly_last_triggered_checked (ts : List ModeAction) (a : ModeAction) :
    ((ToolBar.afterTriggers ts).action a).isChecked
      = decide (a = ts.getLast?.getD ModeAction.rect) := by
  obtain ⟨calls, h⟩ := ToolBar.afterTriggers_canonical ts
  rw [h]
  cases a <;> cases (ts.getLast?.getD ModeAction.rect) <;> rfl

theorem ToolBar.mousePressEvent_menu_iff (g : ToolBarGeometry) (cursor : QPoint)
    (event : QMouseEvent) :
    MouseEffect.saveMenuExec cursor ∈ ToolBar.mousePressEvent g cursor event
      ↔ (event.buttons = Qt.RightButton
          ∧ g.actionAt (g.mapFromGlobal cursor) = some ToolAction.saveAction) := by
  unfold ToolBar.mousePressEvent
  by_cases h : Qt.RightButton = event.buttons
      ∧ some ToolAction.saveAction = g.actionAt (g.mapFromGlobal cursor)
  · simp only [h, and_self, if_true]
    simp [h.1.symm, h.2.symm]
  · simp only [h, if_false]
    simp only [List.nil_append, List.mem_singleton, reduceCtorEq, false_iff]
    intro hc
    exact h ⟨hc.1.symm, hc.2.symm⟩

/-- C7 : a press of the right button while the left button is held down, with the cursor over
the save button, is a right mouse button press over saveAction for which mousePressEvent does
not show the save menu; it only calls the inherited handler. -/
theorem ToolBar.mousePressEvent_chord_no_menu :
    chordEvent.isRightButtonPress ∧ chordEvent.wellFormedPress
      ∧ saveGeometry.actionAt (saveGeometry.mapFromGlobal { x := 5, y := 200 })
        = some ToolAction.saveAction
      ∧ ToolBar.mousePressEvent saveGeometry { x := 5, y := 200 } chordEvent
        = [MouseEffect.inheritedMousePressEvent chordEvent] := by
  refine ⟨by decide, by decide, rfl, by decide⟩

/-- C9 : each entry of the save context menu calls setSaveEditMode with its own mode, Save
without asking with SaveDontAsk, Do not save with DiscardDontAsk and Ask always with AskAlways,
and every mode converted to int and passed through setSaveMode comes out as it went in. -/
theorem ToolBar.saveMenu_sets_own_mode (decl : EditSaveModeDecl) :
    ToolBar.createActions decl .onSaveAlways = [SaveCall.setSaveEditMode decl.SaveDontAsk]
      ∧ ToolBar.createActions decl .onSaveNever = [SaveCall.setSaveEditMode decl.DiscardDontAsk]
      ∧ ToolBar.createActions decl .onAskAlways = [SaveCall.setSaveEditMode decl.AskAlways]
      ∧ ∀ m : EditSaveMode,
          ToolBar.setSaveMode (EditSaveMode.toInt m) = [SaveCall.setSaveEditMode m] := by
  refine ⟨rfl, rfl, rfl, fun m => rfl⟩

end DSS
